import Mathlib

set_option maxHeartbeats 1000000

/-!
Shallow embedding of the canadian-mp-monitor backend.

Part 1 embeds the party-line analytics engine
(`backend/cache_party_line_stats.py`): party extraction from ballots,
party-majority computation, per-MP party-line statistics, incremental
saving and the resumable full run.

Part 2 embeds the incremental cache synchronization engine
(`backend/unified_cache_update.py`): new-vote detection, the process
lock, incremental vote-detail fetching with its index, and cache
expiry checks.

Modelling conventions.  Python dictionaries become association lists
(`List (String × _)`) in insertion order; Python sets become lists
queried by membership; I/O effects become explicit state passing.
Every numeric statistic the Python code stores is of the form
`round(x, 1)` — a multiple of 0.1 — so it is represented exactly as a
natural number of tenths (`percentage 66.7` is stored as `667`); the
function `tenthsToRat` recovers the rational value for theorem
statements.  Python's `round` on these values rounds half to even,
modelled by `pyRoundTenths`.  String primitives are re-implemented by
structural recursion over `List Char` so that concrete instances
evaluate in the kernel; they agree with Python's semantics on the data
involved (`Char.toLower` is ASCII-only, which is equivalent here
because all keyword tests in the source are ASCII).
-/

/-! ### String primitives -/

/-- The list `pat` is a prefix of the first list (helper for the
substring test). -/
def startsWithChars : List Char → List Char → Bool
  | _, [] => true
  | [], _ :: _ => false
  | a :: as, b :: bs => a == b && startsWithChars as bs

/-- The second list occurs as a contiguous sublist of the first
(helper for the substring test). -/
def occursIn : List Char → List Char → Bool
  | [], pat => pat.isEmpty
  | l@(_ :: rest), pat => startsWithChars l pat || occursIn rest pat

/-- Python's substring test `pat in s`. -/
def strContains (s pat : String) : Bool := occursIn s.data pat.data

/-- Lexicographic order on code points (helper for `strLtPy`). -/
def charsLt : List Char → List Char → Bool
  | [], [] => false
  | [], _ :: _ => true
  | _ :: _, [] => false
  | a :: as, b :: bs => a < b || (a == b && charsLt as bs)

/-- Python's `<` on strings: lexicographic comparison of code points. -/
def strLtPy (a b : String) : Bool := charsLt a.data b.data

/-- Python's `str.lower` (ASCII range, sufficient for the keyword
tests of the source). -/
def lowerStr (s : String) : String := ⟨s.data.map Char.toLower⟩

/-- Whitespace recognizer for `trimStr`. -/
def isSpaceChar (c : Char) : Bool := c == ' ' || c == '\t' || c == '\n' || c == '\r'

/-- Python's `str.strip()`. -/
def trimStr (s : String) : String :=
  ⟨((s.data.dropWhile isSpaceChar).reverse.dropWhile isSpaceChar).reverse⟩

/-- Fueled left-to-right non-overlapping replacement (helper for
`replaceStr`; the fuel is the haystack length, enough whenever the
pattern is nonempty). -/
def replaceCharsAux : Nat → List Char → List Char → List Char → List Char
  | 0, hay, _, _ => hay
  | _ + 1, [], _, _ => []
  | fuel + 1, c :: rest, pat, rep =>
    if !pat.isEmpty && startsWithChars (c :: rest) pat then
      rep ++ replaceCharsAux fuel ((c :: rest).drop pat.length) pat rep
    else c :: replaceCharsAux fuel rest pat rep

/-- Python's `str.replace` for a nonempty pattern. -/
def replaceStr (s pat rep : String) : String :=
  ⟨replaceCharsAux s.data.length s.data pat.data rep.data⟩

/-- Python's `str.rstrip('_')`. -/
def rstripUnderscore (s : String) : String :=
  ⟨(s.data.reverse.dropWhile (· == '_')).reverse⟩

/-! ### Rounded percentages as tenths -/

/-- Python's `round(num / den, 1)` represented in tenths: the nearest
integer to `10 * num / den`, ties to even (requires `den > 0`). -/
def pyRoundTenths (num den : Nat) : Nat :=
  let t := 10 * num
  let f := t / den
  let r := t % den
  if 2 * r < den then f
  else if 2 * r > den then f + 1
  else if f % 2 = 0 then f else f + 1

/-- The rational value represented by a tenths count. -/
def tenthsToRat (n : Nat) : ℚ := (n : ℚ) / 10

/-! ### Part 1: party-line analytics (`cache_party_line_stats.py`) -/

/-- One ballot object of a cached vote-detail artifact.  Each field is a
string field probed by `cache_party_line_stats.py`; a missing key is the
empty string (falsy, exactly as in the Python `dict.get` chains).  The
`pol_` fields stand for the nested `politician` object's sub-fields. -/
structure Ballot where
  ballot : String := ""
  mp_party : String := ""
  politician_party : String := ""
  party : String := ""
  pol_current_party_short_name_en : String := ""
  pol_party : String := ""
  politician_url : String := ""
  mp_name : String := ""
  politician_name : String := ""
  pol_name : String := ""
  name : String := ""
  mp_slug : String := ""
  politician_slug : String := ""
  pol_slug : String := ""
  slug : String := ""
deriving DecidableEq

/-- Slug extraction used by `extract_party_from_ballot`:
`politician_url.replace('/politicians/', '').replace('/', '')`. -/
def slugFromUrl (url : String) : String :=
  replaceStr (replaceStr url "/politicians/" "") "/" ""

/-- Embeds `extract_party_from_ballot` (cache_party_line_stats.py lines
76-99): try the party fields in order, then fall back to the
politicians lookup keyed by the slug of `politician_url`; finally
`strip()` the result. -/
def extract_party_from_ballot (b : Ballot)
    (politicians_lookup : Option (List (String × String))) : String :=
  let party_name :=
    if b.mp_party ≠ "" then b.mp_party
    else if b.politician_party ≠ "" then b.politician_party
    else if b.party ≠ "" then b.party
    else if b.pol_current_party_short_name_en ≠ "" then b.pol_current_party_short_name_en
    else if b.pol_party ≠ "" then b.pol_party
    else
      match politicians_lookup with
      | none => ""
      | some lu =>
        if b.politician_url ≠ "" ∧ lu ≠ [] then
          ((lu.lookup (slugFromUrl b.politician_url)).getD "")
        else ""
  trimStr party_name

/-- Embeds `normalize_party_name` (lines 102-119). -/
def normalize_party_name (party : String) : String :=
  let pl := lowerStr party
  if strContains pl "conservative" || strContains pl "cpc" then "Conservative"
  else if strContains pl "liberal" && !(strContains pl "new") then "Liberal"
  else if strContains pl "ndp" || strContains pl "new democratic" then "NDP"
  else if strContains pl "bloc" then "Bloc"
  else if strContains pl "green" then "Green"
  else if strContains pl "independent" then "Independent"
  else party

/-- The dictionary returned by `calculate_party_position` (`cohesion`
in tenths of a percent). -/
structure PartyPosition where
  total : Nat
  yes : Nat
  no : Nat
  paired : Nat
  absent : Nat
  majority_position : Option String
  cohesion : Nat
deriving DecidableEq

/-- The party-ballot filter loop of `calculate_party_position` (lines
129-135), hoisted to a named function. -/
def partyBallotsOf (ballots : List Ballot) (party : String)
    (politicians_lookup : Option (List (String × String))) : List Ballot :=
  ballots.filter (fun b =>
    let bp := extract_party_from_ballot b politicians_lookup
    bp != "" && normalize_party_name bp == normalize_party_name party)

/-- Embeds `calculate_party_position` (lines 122-170): filter the
ballots to the given party, tally the choices, and derive the majority
position (`Yes` iff strictly more Yes than No ballots, `None` when the
party cast no substantive ballot) and the rounded cohesion. -/
def calculate_party_position (ballots : List Ballot) (party : String)
    (politicians_lookup : Option (List (String × String))) : PartyPosition :=
  let party_ballots := partyBallotsOf ballots party politicians_lookup
  if party_ballots.isEmpty then
    { total := 0, yes := 0, no := 0, paired := 0, absent := 0,
      majority_position := none, cohesion := 0 }
  else
    let yes := (party_ballots.filter (fun b => b.ballot == "Yes")).length
    let no := (party_ballots.filter (fun b => b.ballot == "No")).length
    let paired := (party_ballots.filter (fun b => b.ballot == "Paired")).length
    let absent := (party_ballots.filter (fun b => b.ballot == "" || b.ballot == "Absent")).length
    let substantive_votes := yes + no
    let majority_position := if yes > no then "Yes" else "No"
    let majority_count := max yes no
    { total := party_ballots.length, yes := yes, no := no, paired := paired, absent := absent,
      majority_position := if substantive_votes > 0 then some majority_position else none,
      cohesion :=
        if substantive_votes > 0 then pyRoundTenths (majority_count * 100) substantive_votes
        else 0 }

/-- Embeds `did_vote_with_party` (lines 173-180). -/
def did_vote_with_party (mp_vote : String) (party_majority_position : Option String) : Bool :=
  match party_majority_position with
  | none => false
  | some p =>
    if p == "" || mp_vote == "" then false
    else if mp_vote != "Yes" && mp_vote != "No" then false
    else mp_vote == p

/-- The `vote` sub-object of a vote-detail artifact, restricted to the
keys the analytics engine reads; `none` models an absent key. -/
structure VoteInfo where
  date : Option String := none
  description_en : Option String := none
  session : Option String := none
deriving DecidableEq

/-- One cached vote-detail artifact: the vote object plus its ballots. -/
structure VoteData where
  vote : VoteInfo := {}
  ballots : List Ballot := []
deriving DecidableEq

/-- A party-discipline break record as appended by
`calculate_mp_party_line_stats` (lines 272-278). -/
structure BreakRecord where
  vote_id : String
  mp_vote : String
  party_position : String
  date : Option String
  description : String
deriving DecidableEq

/-- Embeds the MP-ballot search loop of `calculate_mp_party_line_stats`
(lines 227-254): primary match on `politician_url`, fallback on slug
fields or case-insensitive name containment. -/
def ballotMatchesMp (mp_slug : String) (b : Ballot) : Bool :=
  strContains b.politician_url ("/politicians/" ++ mp_slug ++ "/")
  || [b.mp_slug, b.politician_slug, b.pol_slug, b.slug].contains mp_slug
  || (let target := lowerStr (replaceStr mp_slug "-" " ")
      [b.mp_name, b.politician_name, b.pol_name, b.name].any
        (fun n => n != "" && strContains (lowerStr n) target))

/-- The MP's ballot choice in a vote: the `ballot` field of the first
matching ballot object, if any. -/
def findMpBallot (ballots : List Ballot) (mp_slug : String) : Option String :=
  (ballots.find? (ballotMatchesMp mp_slug)).map (·.ballot)

/-- In-flight accumulator of `calculate_mp_party_line_stats`: the
session map holds `(party_line, total)` pairs in insertion order
(Python `defaultdict`). -/
structure MpAccum where
  party_line_votes : Nat := 0
  total_eligible_votes : Nat := 0
  party_discipline_breaks : List BreakRecord := []
  party_loyalty_by_session : List (String × Nat × Nat) := []
deriving DecidableEq

/-- The `defaultdict` update `party_loyalty_by_session[session]` of
lines 281-284: bump `total`, and `party_line` when the MP voted with
the party; create the entry on first use. -/
def bumpSession (l : List (String × Nat × Nat)) (s : String) (withParty : Bool) :
    List (String × Nat × Nat) :=
  match l with
  | [] => [(s, (if withParty then 1 else 0), 1)]
  | (k, pl, tot) :: rest =>
    if k == s then (k, (if withParty then pl + 1 else pl), tot + 1) :: rest
    else (k, pl, tot) :: bumpSession rest s withParty

/-- Embeds the body of the per-vote loop of
`calculate_mp_party_line_stats` (lines 218-289) for one vote. -/
def processVote (mp_slug mp_party : String)
    (politicians_lookup : Option (List (String × String)))
    (acc : MpAccum) (entry : String × VoteData) : MpAccum :=
  let (vote_id, vote_data) := entry
  if vote_data.ballots.isEmpty then acc
  else
    match findMpBallot vote_data.ballots mp_slug with
    | none => acc
    | some mp_ballot =>
      if mp_ballot != "Yes" && mp_ballot != "No" then acc
      else
        let party_stats := calculate_party_position vote_data.ballots mp_party politicians_lookup
        match party_stats.majority_position with
        | none => acc
        | some pos =>
          if pos == "" then acc
          else
            let voted_with_party := did_vote_with_party mp_ballot (some pos)
            let acc1 := { acc with total_eligible_votes := acc.total_eligible_votes + 1 }
            let acc2 :=
              if voted_with_party then
                { acc1 with party_line_votes := acc1.party_line_votes + 1 }
              else
                { acc1 with party_discipline_breaks := acc1.party_discipline_breaks ++
                    [{ vote_id := vote_id, mp_vote := mp_ballot, party_position := pos,
                       date := vote_data.vote.date,
                       description := (vote_data.vote.description_en).getD "Parliamentary Vote" }] }
            let sessionKey := (vote_data.vote.session).getD "unknown"
            { acc2 with party_loyalty_by_session :=
                bumpSession acc2.party_loyalty_by_session sessionKey voted_with_party }

/-- One session's entry of the final `party_loyalty_by_session` dict
(`percentage` in tenths). -/
structure SessionStat where
  party_line : Nat
  total : Nat
  percentage : Nat
deriving DecidableEq

/-- The session-percentage post-pass of lines 295-302. -/
def sessionStatsOf (l : List (String × Nat × Nat)) : List (String × SessionStat) :=
  l.map (fun e =>
    (e.1, { party_line := e.2.1, total := e.2.2,
            percentage := if e.2.2 > 0 then pyRoundTenths (e.2.1 * 100) e.2.2 else 0 }))

/-- The Party-Line Stat Record returned for one MP (lines 304-314);
`party_line_percentage` in tenths.  The constant `methodology` field
and the wall-clock `calculated_at` field carry no information and are
omitted. -/
structure MpStats where
  mp_slug : String
  mp_party : String
  party_line_votes : Nat
  total_eligible_votes : Nat
  party_line_percentage : Nat
  party_discipline_breaks : List BreakRecord
  party_loyalty_by_session : List (String × SessionStat)
deriving DecidableEq

/-- Embeds `calculate_mp_party_line_stats` (lines 210-314): fold the
per-vote loop over the vote corpus in iteration order, then build the
final record (percentage guarded against division by zero, break list
truncated to the first 10 accumulated). -/
def calculate_mp_party_line_stats (mp_slug mp_party : String)
    (votes_data : List (String × VoteData))
    (politicians_lookup : Option (List (String × String))) : MpStats :=
  let acc := votes_data.foldl (processVote mp_slug mp_party politicians_lookup) {}
  { mp_slug := mp_slug, mp_party := mp_party,
    party_line_votes := acc.party_line_votes,
    total_eligible_votes := acc.total_eligible_votes,
    party_line_percentage :=
      if acc.total_eligible_votes > 0 then
        pyRoundTenths (acc.party_line_votes * 100) acc.total_eligible_votes
      else 0,
    party_discipline_breaks := acc.party_discipline_breaks.take 10,
    party_loyalty_by_session := sessionStatsOf acc.party_loyalty_by_session }

/-! ### Characterization lemmas for `calculate_party_position` -/

/-- The `yes` tally of the returned record. -/
lemma cpp_yes (ballots : List Ballot) (party : String)
    (lookup : Option (List (String × String))) :
    (calculate_party_position ballots party lookup).yes
      = ((partyBallotsOf ballots party lookup).filter (fun b => b.ballot == "Yes")).length := by
  unfold calculate_party_position
  by_cases h : (partyBallotsOf ballots party lookup).isEmpty
  · rw [if_pos h]
    rw [List.isEmpty_iff.mp h]
    rfl
  · rw [if_neg h]

/-- The `no` tally of the returned record. -/
lemma cpp_no (ballots : List Ballot) (party : String)
    (lookup : Option (List (String × String))) :
    (calculate_party_position ballots party lookup).no
      = ((partyBallotsOf ballots party lookup).filter (fun b => b.ballot == "No")).length := by
  unfold calculate_party_position
  by_cases h : (partyBallotsOf ballots party lookup).isEmpty
  · rw [if_pos h]
    rw [List.isEmpty_iff.mp h]
    rfl
  · rw [if_neg h]

/-- The majority position of the returned record, in terms of its own
`yes`/`no` tallies. -/
lemma cpp_majority (ballots : List Ballot) (party : String)
    (lookup : Option (List (String × String))) :
    (calculate_party_position ballots party lookup).majority_position
      = if 0 < (calculate_party_position ballots party lookup).yes
              + (calculate_party_position ballots party lookup).no then
          some (if (calculate_party_position ballots party lookup).no
                  < (calculate_party_position ballots party lookup).yes then "Yes" else "No")
        else none := by
  rw [cpp_yes, cpp_no]
  unfold calculate_party_position
  by_cases h : (partyBallotsOf ballots party lookup).isEmpty
  · rw [if_pos h]
    rw [List.isEmpty_iff.mp h]
    rfl
  · rw [if_neg h]

/-- The cohesion of the returned record, in terms of its own
`yes`/`no` tallies. -/
lemma cpp_cohesion (ballots : List Ballot) (party : String)
    (lookup : Option (List (String × String))) :
    (calculate_party_position ballots party lookup).cohesion
      = if 0 < (calculate_party_position ballots party lookup).yes
              + (calculate_party_position ballots party lookup).no then
          pyRoundTenths
            (max (calculate_party_position ballots party lookup).yes
                 (calculate_party_position ballots party lookup).no * 100)
            ((calculate_party_position ballots party lookup).yes
              + (calculate_party_position ballots party lookup).no)
        else 0 := by
  rw [cpp_yes, cpp_no]
  unfold calculate_party_position
  by_cases h : (partyBallotsOf ballots party lookup).isEmpty
  · rw [if_pos h]
    rw [List.isEmpty_iff.mp h]
    rfl
  · rw [if_neg h]

/-- A defined majority position is the literal `"Yes"` or `"No"`. -/
lemma cpp_majority_yes_or_no (ballots : List Ballot) (party : String)
    (lookup : Option (List (String × String))) (p : String)
    (h : (calculate_party_position ballots party lookup).majority_position = some p) :
    p = "Yes" ∨ p = "No" := by
  rw [cpp_majority] at h
  by_cases h0 : 0 < (calculate_party_position ballots party lookup).yes
      + (calculate_party_position ballots party lookup).no
  · rw [if_pos h0] at h
    by_cases h1 : (calculate_party_position ballots party lookup).no
        < (calculate_party_position ballots party lookup).yes
    · left
      rw [if_pos h1] at h
      exact (Option.some_injective _ h).symm
    · right
      rw [if_neg h1] at h
      exact (Option.some_injective _ h).symm
  · rw [if_neg h0] at h
    exact absurd h (by simp)

/-! ### Example data used in concrete instances -/

/-- A vote where one party casts 80 Yes and 20 No ballots. -/
def egBallots8020 : List Ballot :=
  List.replicate 80 { ballot := "Yes", mp_party := "Liberal" } ++
  List.replicate 20 { ballot := "No", mp_party := "Liberal" }

/-- A vote with 1 Yes and 2 No ballots for the party. -/
def egBallots120 : List Ballot :=
  [{ ballot := "Yes", mp_party := "Liberal" },
   { ballot := "No", mp_party := "Liberal" },
   { ballot := "No", mp_party := "Liberal" }]

/-- A perfectly tied vote: 1 Yes and 1 No ballot for the party. -/
def egBallotsTie : List Ballot :=
  [{ ballot := "Yes", mp_party := "Liberal" },
   { ballot := "No", mp_party := "Liberal" }]

/-- A 2 Yes / 1 No vote for the party. -/
def egBallots21 : List Ballot :=
  [{ ballot := "Yes", mp_party := "Liberal" },
   { ballot := "Yes", mp_party := "Liberal" },
   { ballot := "No", mp_party := "Liberal" }]

/-- A vote in which the MP `mp1` casts Yes but their party records no
substantive (Yes/No) ballot: the MP's own ballot carries no party
information, and the only Liberal ballot is Paired. -/
def egVoteNoSubstantive : VoteData :=
  { ballots := [{ ballot := "Yes", politician_url := "/politicians/mp1/" },
                { ballot := "Paired", mp_party := "Liberal" }] }

/-- C1, counterexample.  The claim states that a defined cohesion equals
`max(Yes,No)/(Yes+No)*100`.  On a 1-Yes/2-No tally the code stores
`round(200/3, 1) = 66.7` (667 tenths), which differs from `200/3`. -/
theorem c1_cohesion_rounding_counterexample :
    (calculate_party_position egBallots120 "Liberal" none).yes = 1
    ∧ (calculate_party_position egBallots120 "Liberal" none).no = 2
    ∧ tenthsToRat (calculate_party_position egBallots120 "Liberal" none).cohesion
        ≠ max (1 : ℚ) 2 / (1 + 2) * 100 := by
  refine ⟨by decide, by decide, ?_⟩
  have h : (calculate_party_position egBallots120 "Liberal" none).cohesion = 667 := by decide
  rw [h, max_eq_right (by norm_num : (1 : ℚ) ≤ 2)]
  norm_num [tenthsToRat]

/-- C1, amended.  For every ballot set and party: the majority position
is defined iff the party's Yes+No tally is positive; when defined it is
`"Yes"` iff Yes strictly exceeds No and `"No"` otherwise, and the stored
cohesion is `max(Yes,No)/(Yes+No)*100` rounded to one decimal place.
In particular an 80-Yes/20-No tally yields majority `"Yes"` with
cohesion 80.0, and a 0-Yes/0-No tally yields an undefined majority so
that the vote leaves any legislator's accumulator (in particular the
eligible total) unchanged. -/
theorem c1_party_position_law (ballots : List Ballot) (party : String)
    (lookup : Option (List (String × String))) :
    ((calculate_party_position ballots party lookup).majority_position.isSome
        ↔ 0 < (calculate_party_position ballots party lookup).yes
            + (calculate_party_position ballots party lookup).no)
    ∧ (0 < (calculate_party_position ballots party lookup).yes
          + (calculate_party_position ballots party lookup).no →
        (calculate_party_position ballots party lookup).majority_position
          = some (if (calculate_party_position ballots party lookup).no
                    < (calculate_party_position ballots party lookup).yes then "Yes" else "No")
          ∧ (calculate_party_position ballots party lookup).cohesion
            = pyRoundTenths
                (max (calculate_party_position ballots party lookup).yes
                     (calculate_party_position ballots party lookup).no * 100)
                ((calculate_party_position ballots party lookup).yes
                  + (calculate_party_position ballots party lookup).no))
    ∧ (calculate_party_position egBallots8020 "Liberal" none).majority_position = some "Yes"
    ∧ tenthsToRat (calculate_party_position egBallots8020 "Liberal" none).cohesion = 80
    ∧ (calculate_party_position egVoteNoSubstantive.ballots "Liberal" none).majority_position = none
    ∧ ∀ acc : MpAccum, processVote "mp1" "Liberal" none acc ("v1", egVoteNoSubstantive) = acc := by
  refine ⟨?_, ?_, by decide, ?_, by decide, fun acc => rfl⟩
  · rw [cpp_majority]
    by_cases h0 : 0 < (calculate_party_position ballots party lookup).yes
        + (calculate_party_position ballots party lookup).no
    · rw [if_pos h0]
      simp [h0]
    · rw [if_neg h0]
      simp [h0]
  · intro h0
    exact ⟨by rw [cpp_majority, if_pos h0], by rw [cpp_cohesion, if_pos h0]⟩
  · have h : (calculate_party_position egBallots8020 "Liberal" none).cohesion = 800 := by decide
    rw [h]
    norm_num [tenthsToRat]

/-- C1, witness: the general law applied to the 80/20 tally. -/
theorem c1_party_position_law_witness :
    (calculate_party_position egBallots8020 "Liberal" none).majority_position
      = some (if (calculate_party_position egBallots8020 "Liberal" none).no
                < (calculate_party_position egBallots8020 "Liberal" none).yes then "Yes" else "No")
    ∧ tenthsToRat (calculate_party_position egBallots8020 "Liberal" none).cohesion = 80 :=
  ⟨((c1_party_position_law egBallots8020 "Liberal" none).2.1 (by decide)).1,
   (c1_party_position_law egBallots8020 "Liberal" none).2.2.2.1⟩

/-- C7, counterexample.  In an exact 1-1 tie the code still reports the
defined majority position `"No"`, although that choice is held by
exactly half — not strictly more than half — of the two substantive
ballots. -/
theorem c7_tie_counterexample :
    (calculate_party_position egBallotsTie "Liberal" none).majority_position = some "No"
    ∧ (calculate_party_position egBallotsTie "Liberal" none).yes = 1
    ∧ (calculate_party_position egBallotsTie "Liberal" none).no = 1
    ∧ ¬((calculate_party_position egBallotsTie "Liberal" none).yes
          + (calculate_party_position egBallotsTie "Liberal" none).no
        < 2 * (calculate_party_position egBallotsTie "Liberal" none).no) := by decide

/-- C7, amended.  A defined majority position is `"Yes"` or `"No"`, is
held by at least half of the party's substantive ballots, is held by
strictly more than half whenever the tally is not an exact tie, and in
an exact tie it is `"No"`. -/
theorem c7_majority_at_least_half (ballots : List Ballot) (party : String)
    (lookup : Option (List (String × String))) (p : String)
    (h : (calculate_party_position ballots party lookup).majority_position = some p) :
    (p = "Yes" ∨ p = "No")
    ∧ (calculate_party_position ballots party lookup).yes
        + (calculate_party_position ballots party lookup).no
        ≤ 2 * (if p = "Yes" then (calculate_party_position ballots party lookup).yes
               else (calculate_party_position ballots party lookup).no)
    ∧ ((calculate_party_position ballots party lookup).yes
          ≠ (calculate_party_position ballots party lookup).no →
        (calculate_party_position ballots party lookup).yes
          + (calculate_party_position ballots party lookup).no
          < 2 * (if p = "Yes" then (calculate_party_position ballots party lookup).yes
                 else (calculate_party_position ballots party lookup).no))
    ∧ ((calculate_party_position ballots party lookup).yes
          = (calculate_party_position ballots party lookup).no → p = "No") := by
  rw [cpp_majority] at h
  by_cases h0 : 0 < (calculate_party_position ballots party lookup).yes
      + (calculate_party_position ballots party lookup).no
  · rw [if_pos h0] at h
    by_cases h1 : (calculate_party_position ballots party lookup).no
        < (calculate_party_position ballots party lookup).yes
    · rw [if_pos h1] at h
      have hp : p = "Yes" := (Option.some_injective _ h.symm)
      subst hp
      rw [if_pos rfl]
      exact ⟨Or.inl rfl, by omega, fun _ => by omega, fun he => absurd he (by omega)⟩
    · rw [if_neg h1] at h
      have hp : p = "No" := (Option.some_injective _ h.symm)
      subst hp
      rw [if_neg (by decide : ¬("No" : String) = "Yes")]
      exact ⟨Or.inr rfl, by omega, fun hne => by omega, fun _ => rfl⟩
  · rw [if_neg h0] at h
    exact absurd h (by simp)

/-- C7, witness: the amended law applied to a 2-Yes/1-No tally. -/
theorem c7_majority_at_least_half_witness :
    (calculate_party_position egBallots21 "Liberal" none).yes
      + (calculate_party_position egBallots21 "Liberal" none).no
      ≤ 2 * (if ("Yes" : String) = "Yes" then (calculate_party_position egBallots21 "Liberal" none).yes
             else (calculate_party_position egBallots21 "Liberal" none).no) :=
  (c7_majority_at_least_half egBallots21 "Liberal" none "Yes" (by decide)).2.1

/-- C8.  A legislator whose eligible total is zero gets
`party_line_percentage = 0` (the guarded formula, not a division
error), and any session tally with a zero total gets a session
percentage of 0. -/
theorem c8_zero_eligible_zero_percentage (mp_slug mp_party : String)
    (votes_data : List (String × VoteData))
    (lookup : Option (List (String × String)))
    (h : (calculate_mp_party_line_stats mp_slug mp_party votes_data lookup).total_eligible_votes
          = 0)
    (tallies : List (String × Nat × Nat)) (s : String) (pl : Nat)
    (hmem : (s, pl, 0) ∈ tallies) :
    (calculate_mp_party_line_stats mp_slug mp_party votes_data lookup).party_line_percentage = 0
    ∧ (s, { party_line := pl, total := 0, percentage := 0 }) ∈ sessionStatsOf tallies := by
  constructor
  · have hacc : (votes_data.foldl (processVote mp_slug mp_party lookup)
        ({} : MpAccum)).total_eligible_votes = 0 := h
    unfold calculate_mp_party_line_stats
    simp [hacc]
  · exact List.mem_map.mpr ⟨(s, pl, 0), hmem, rfl⟩

/-- C8, witness: an empty corpus gives zero eligible votes and
percentage 0; a zero-total session tally maps to percentage 0. -/
theorem c8_zero_eligible_zero_percentage_witness :
    (calculate_mp_party_line_stats "mp1" "Liberal" [] none).party_line_percentage = 0
    ∧ (("45-1" : String), ({ party_line := 3, total := 0, percentage := 0 } : SessionStat))
        ∈ sessionStatsOf [("45-1", 3, 0)] :=
  c8_zero_eligible_zero_percentage "mp1" "Liberal" [] none (by decide)
    [("45-1", 3, 0)] "45-1" 3 (by decide)

/-! ### Closed forms for `processVote` (used by claim C2) -/

/-- `did_vote_with_party` on substantive choices is plain equality. -/
lemma dvwp_yesno (v pos : String) (hv : v = "Yes" ∨ v = "No")
    (hp : pos = "Yes" ∨ pos = "No") :
    did_vote_with_party v (some pos) = (v == pos) := by
  rcases hv with rfl | rfl <;> rcases hp with rfl | rfl <;> rfl

/-- The discipline-break record appended for one vote. -/
def breakRecordOf (vote_id v pos : String) (vd : VoteData) : BreakRecord :=
  { vote_id := vote_id, mp_vote := v, party_position := pos,
    date := vd.vote.date,
    description := (vd.vote.description_en).getD "Parliamentary Vote" }

/-- Closed form of `processVote` in the counted case: the MP cast a
substantive ballot and the party majority is defined. -/
lemma processVote_counted (mp_slug mp_party : String)
    (lookup : Option (List (String × String))) (acc : MpAccum)
    (vote_id : String) (vd : VoteData) (v pos : String)
    (hbe : vd.ballots.isEmpty = false)
    (hfb : findMpBallot vd.ballots mp_slug = some v)
    (hv : v = "Yes" ∨ v = "No")
    (hmj : (calculate_party_position vd.ballots mp_party lookup).majority_position = some pos) :
    processVote mp_slug mp_party lookup acc (vote_id, vd) =
      { party_line_votes :=
          if v == pos then acc.party_line_votes + 1 else acc.party_line_votes,
        total_eligible_votes := acc.total_eligible_votes + 1,
        party_discipline_breaks :=
          if v == pos then acc.party_discipline_breaks
          else acc.party_discipline_breaks ++ [breakRecordOf vote_id v pos vd],
        party_loyalty_by_session :=
          bumpSession acc.party_loyalty_by_session
            ((vd.vote.session).getD "unknown") (v == pos) } := by
  have hposYN : pos = "Yes" ∨ pos = "No" :=
    cpp_majority_yes_or_no vd.ballots mp_party lookup pos hmj
  have hc : (v != "Yes" && v != "No") = false := by
    rcases hv with rfl | rfl <;> rfl
  have hpe : (pos == "") = false := by
    rcases hposYN with rfl | rfl <;> rfl
  have hdv : did_vote_with_party v (some pos) = (v == pos) := dvwp_yesno v pos hv hposYN
  cases hvp : v == pos <;>
    simp [processVote, hbe, hfb, hc, hmj, hpe, hdv, hvp, breakRecordOf]

/-- `processVote` leaves the accumulator unchanged in every skip case:
empty ballot list, MP not found, non-substantive MP ballot, or
undefined party majority. -/
lemma processVote_skipped (mp_slug mp_party : String)
    (lookup : Option (List (String × String))) (acc : MpAccum)
    (vote_id : String) (vd : VoteData)
    (h : vd.ballots = []
       ∨ findMpBallot vd.ballots mp_slug = none
       ∨ (∃ v, findMpBallot vd.ballots mp_slug = some v ∧ ¬(v = "Yes" ∨ v = "No"))
       ∨ (calculate_party_position vd.ballots mp_party lookup).majority_position = none) :
    processVote mp_slug mp_party lookup acc (vote_id, vd) = acc := by
  by_cases hbe : vd.ballots.isEmpty
  · simp [processVote, hbe]
  · rcases h with h | h | ⟨v, hfb, hv⟩ | h
    · exact absurd (List.isEmpty_iff.mpr h) hbe
    · simp [processVote, hbe, h]
    · have hc : (v != "Yes" && v != "No") = true := by
        push_neg at hv
        simp [bne_iff_ne, hv.1, hv.2]
      simp [processVote, hbe, hfb, hc]
    · rcases hfb : findMpBallot vd.ballots mp_slug with _ | v
      · simp [processVote, hbe, hfb]
      · by_cases hv : v = "Yes" ∨ v = "No"
        · have hc : (v != "Yes" && v != "No") = false := by
            rcases hv with rfl | rfl <;> rfl
          simp [processVote, hbe, hfb, hc, h]
        · have hc : (v != "Yes" && v != "No") = true := by
            push_neg at hv
            simp [bne_iff_ne, hv.1, hv.2]
          simp [processVote, hbe, hfb, hc]

/-- A vote in which MP `mp1` votes No against a 2-Yes Liberal majority. -/
def egVoteBreak : VoteData :=
  { vote := { date := some "2024-01-01" },
    ballots := [{ ballot := "No", mp_party := "Liberal", politician_url := "/politicians/mp1/" },
                { ballot := "Yes", mp_party := "Liberal" },
                { ballot := "Yes", mp_party := "Liberal" }] }

/-- C2.  A vote increments the eligible total iff the MP cast a
substantive (Yes/No) ballot and the party majority is defined; in that
case the MP counts as voting with the party exactly when their choice
equals the majority position, and otherwise exactly one discipline
break with the claimed fields is appended; the persisted break list is
the first 10 accumulated breaks (votes are processed newest-first), so
it never exceeds 10. -/
theorem c2_eligibility_and_discipline_breaks (mp_slug mp_party : String)
    (lookup : Option (List (String × String))) (acc : MpAccum)
    (vote_id : String) (vd : VoteData) (votes_data : List (String × VoteData)) :
    ((processVote mp_slug mp_party lookup acc (vote_id, vd)).total_eligible_votes
        = acc.total_eligible_votes + 1
      ↔ vd.ballots ≠ [] ∧ ∃ v, findMpBallot vd.ballots mp_slug = some v
          ∧ (v = "Yes" ∨ v = "No")
          ∧ (calculate_party_position vd.ballots mp_party lookup).majority_position.isSome)
    ∧ (∀ v pos, vd.ballots ≠ [] → findMpBallot vd.ballots mp_slug = some v
        → (v = "Yes" ∨ v = "No")
        → (calculate_party_position vd.ballots mp_party lookup).majority_position = some pos
        → ((v = pos →
              (processVote mp_slug mp_party lookup acc (vote_id, vd)).party_line_votes
                  = acc.party_line_votes + 1
              ∧ (processVote mp_slug mp_party lookup acc (vote_id, vd)).party_discipline_breaks
                  = acc.party_discipline_breaks)
           ∧ (v ≠ pos →
              (processVote mp_slug mp_party lookup acc (vote_id, vd)).party_line_votes
                  = acc.party_line_votes
              ∧ (processVote mp_slug mp_party lookup acc (vote_id, vd)).party_discipline_breaks
                  = acc.party_discipline_breaks ++
                    [{ vote_id := vote_id, mp_vote := v, party_position := pos,
                       date := vd.vote.date,
                       description := (vd.vote.description_en).getD "Parliamentary Vote" }])))
    ∧ (calculate_mp_party_line_stats mp_slug mp_party votes_data lookup).party_discipline_breaks
        = ((votes_data.foldl (processVote mp_slug mp_party lookup)
             ({} : MpAccum)).party_discipline_breaks).take 10
    ∧ ((calculate_mp_party_line_stats mp_slug mp_party votes_data
          lookup).party_discipline_breaks).length ≤ 10 := by
  refine ⟨?_, ?_, rfl, ?_⟩
  · by_cases hbe : vd.ballots.isEmpty
    · rw [processVote_skipped mp_slug mp_party lookup acc vote_id vd
        (Or.inl (List.isEmpty_iff.mp hbe))]
      simp [List.isEmpty_iff.mp hbe]
    · have hbe' : vd.ballots ≠ [] := fun hc => hbe (List.isEmpty_iff.mpr hc)
      rcases hfb : findMpBallot vd.ballots mp_slug with _ | v
      · rw [processVote_skipped mp_slug mp_party lookup acc vote_id vd
          (Or.inr (Or.inl hfb))]
        simp [hfb]
      · by_cases hv : v = "Yes" ∨ v = "No"
        · rcases hmj : (calculate_party_position vd.ballots mp_party lookup).majority_position
            with _ | pos
          · rw [processVote_skipped mp_slug mp_party lookup acc vote_id vd
              (Or.inr (Or.inr (Or.inr hmj)))]
            simp [hfb, hmj]
          · have hbef : vd.ballots.isEmpty = false := by
              cases hx : vd.ballots.isEmpty
              · rfl
              · exact absurd hx hbe
            rw [processVote_counted mp_slug mp_party lookup acc vote_id vd v pos
              hbef hfb hv hmj]
            simp [hfb, hv, hmj, hbe']
        · rw [processVote_skipped mp_slug mp_party lookup acc vote_id vd
            (Or.inr (Or.inr (Or.inl ⟨v, hfb, hv⟩)))]
          simp [hfb, hv]
  · intro v pos hne hfb hv hmj
    have hbef : vd.ballots.isEmpty = false := by
      cases hx : vd.ballots.isEmpty
      · rfl
      · exact absurd (List.isEmpty_iff.mp hx) hne
    rw [processVote_counted mp_slug mp_party lookup acc vote_id vd v pos hbef hfb hv hmj]
    constructor
    · intro hvp
      subst hvp
      simp [breakRecordOf]
    · intro hvp
      have hbf : (v == pos) = false := beq_eq_false_iff_ne.mpr hvp
      simp [hbf, breakRecordOf]
  · have ht : (calculate_mp_party_line_stats mp_slug mp_party votes_data
        lookup).party_discipline_breaks
      = ((votes_data.foldl (processVote mp_slug mp_party lookup)
           ({} : MpAccum)).party_discipline_breaks).take 10 := rfl
    rw [ht, List.length_take]
    exact min_le_left _ _

/-- C2, witness: MP `mp1` voting No against a Yes majority produces
exactly one break record with `mp_vote="No"`, `party_position="Yes"`,
and the vote counts as eligible. -/
theorem c2_eligibility_and_discipline_breaks_witness :
    (processVote "mp1" "Liberal" none ({} : MpAccum) ("v1", egVoteBreak)).party_discipline_breaks
      = [{ vote_id := "v1", mp_vote := "No", party_position := "Yes",
           date := some "2024-01-01", description := "Parliamentary Vote" }]
    ∧ (processVote "mp1" "Liberal" none ({} : MpAccum)
        ("v1", egVoteBreak)).total_eligible_votes = 1 := by
  have h := c2_eligibility_and_discipline_breaks "mp1" "Liberal" none {} "v1" egVoteBreak []
  have h2 := (h.2.1 "No" "Yes" (by decide) (by decide) (by decide) (by decide)).2
    (by decide)
  refine ⟨by simpa using h2.2, ?_⟩
  exact h.1.mpr ⟨by decide, "No", by decide, by decide, by decide⟩

/-! ### Incremental saving and the resumable full run -/

/-- Python's `round(num / den, 1)` when `num` is already a tenths
count: the nearest integer to `num / den`, ties to even. -/
def pyRoundNearest (num den : Nat) : Nat :=
  let f := num / den
  let r := num % den
  if 2 * r < den then f
  else if 2 * r > den then f + 1
  else if f % 2 = 0 then f else f + 1

/-- The `summary` object of the party-line result document
(lines 459-465); the wall-clock fields `calculation_date` and
`cache_expires` carry no analytical information and are omitted.
`sessions_analyzed` is absent (`none`) until the final pass of
`calculate_all_party_line_stats` sets it. -/
structure PartyLineSummary where
  total_mps_analyzed : Nat := 0
  total_votes_analyzed : Nat := 0
  avg_party_line_percentage : Nat := 0
  sessions_analyzed : Option (List String) := none
deriving DecidableEq

/-- The party-line result document: summary plus per-MP stats in
insertion order.  The `session_summary` object is a pure function of
`mp_stats` (`calculate_session_summary_stats`), so it is determined by
this record and not duplicated here. -/
structure PartyLineDoc where
  summary : PartyLineSummary := {}
  mp_stats : List (String × MpStats) := []
deriving DecidableEq

/-- Python dict assignment `existing_data['mp_stats'][mp_slug] = stats`:
replace in place or append. -/
def upsertStats : List (String × MpStats) → String → MpStats → List (String × MpStats)
  | [], k, v => [(k, v)]
  | (k', v') :: rest, k, v =>
    if k' == k then (k', v) :: rest else (k', v') :: upsertStats rest k v

/-- Embeds `save_incremental_results` (lines 455-482): create a fresh
document when none exists, insert the MP's stats, and refresh
`total_mps_analyzed` and the average percentage. -/
def save_incremental_results (mp_slug : String) (mp_stats : MpStats)
    (existing_data : Option PartyLineDoc) : PartyLineDoc :=
  let d := existing_data.getD {}
  let all_stats := upsertStats d.mp_stats mp_slug mp_stats
  { summary := { d.summary with
      total_mps_analyzed := all_stats.length,
      avg_party_line_percentage :=
        if all_stats.isEmpty then 0
        else pyRoundNearest
          (all_stats.map (fun e => e.2.party_line_percentage)).sum all_stats.length },
    mp_stats := all_stats }

/-- Python set insertion over the `all_sessions` set, in first-seen
order. -/
def addSessionsToSet (cur : List String) (keys : List String) : List String :=
  keys.foldl (fun c k => if c.contains k then c else c ++ [k]) cur

/-- Helper for `sortDescStr`: insert into a descending-sorted list. -/
def insertDescStr (x : String) : List String → List String
  | [] => [x]
  | y :: ys => if strLtPy x y then y :: insertDescStr x ys else x :: y :: ys

/-- Python's `sorted(..., reverse=True)` on the session identifiers. -/
def sortDescStr : List String → List String
  | [] => []
  | x :: xs => insertDescStr x (sortDescStr xs)

/-- The per-MP loop body of `calculate_all_party_line_stats`
(lines 512-555): skip checkpointed MPs, skip MPs with no votes,
otherwise compute stats, save incrementally, and collect this MP's
sessions into the in-memory session set. -/
def analyticsStep (all_mps : List (String × String))
    (getVotes : String → List (String × VoteData)) (already_processed : List String)
    (st : Option PartyLineDoc × List String) (mp : String × String) :
    Option PartyLineDoc × List String :=
  if already_processed.contains mp.1 then st
  else
    let mp_votes_data := getVotes mp.1
    if mp_votes_data.isEmpty then st
    else
      let stats := calculate_mp_party_line_stats mp.1 mp.2 mp_votes_data (some all_mps)
      (some (save_incremental_results mp.1 stats st.1),
       addSessionsToSet st.2 (stats.party_loyalty_by_session.map Prod.fst))

/-- The checkpointed-MPs set read from an existing document
(lines 498-505). -/
def alreadyProcessedOf (o : Option PartyLineDoc) : List String :=
  (o.map (fun d => d.mp_stats.map Prod.fst)).getD []

/-- The whole per-MP loop, starting from an existing document and an
empty in-memory session set. -/
def analyticsFold (all_mps : List (String × String))
    (getVotes : String → List (String × VoteData))
    (existing : Option PartyLineDoc) : Option PartyLineDoc × List String :=
  all_mps.foldl (analyticsStep all_mps getVotes (alreadyProcessedOf existing))
    (existing, [])

/-- The final summary pass (lines 557-566): write the collected session
set, sorted descending, into the summary.  Returns `none` when nothing
was ever saved. -/
def finalizeDoc (o : Option PartyLineDoc) (sessions : List String) : Option PartyLineDoc :=
  match o with
  | none => none
  | some d =>
    some { d with summary := { d.summary with
      sessions_analyzed := some (sortDescStr sessions) } }

/-- Embeds `calculate_all_party_line_stats` (lines 484-569).  The vote
corpus is abstracted as the deterministic function `getVotes`
(`get_votes_for_mp_analysis`); wall-clock timestamps are abstracted
away.  Unless `force_recalculate` is set, the MPs present in the
existing document are skipped entirely. -/
def calculate_all_party_line_stats (all_mps : List (String × String))
    (getVotes : String → List (String × VoteData))
    (existing0 : Option PartyLineDoc) (force_recalculate : Bool) : Option PartyLineDoc :=
  if all_mps.isEmpty then none
  else
    finalizeDoc
      (analyticsFold all_mps getVotes (if force_recalculate then none else existing0)).1
      (analyticsFold all_mps getVotes (if force_recalculate then none else existing0)).2

/-- The document persisted on disk when a fresh run is interrupted
right after the first `k` legislators of the MP list have been
processed and saved: the fold over the list prefix, with no final
summary pass (the in-memory session set is lost with the process). -/
def interruptedAnalyticsState (all_mps : List (String × String))
    (getVotes : String → List (String × VoteData)) (k : Nat) : Option PartyLineDoc :=
  ((all_mps.take k).foldl (analyticsStep all_mps getVotes []) (none, [])).1

set_option maxRecDepth 10000

/-- A vote of session `session` in which the named MP and one other
Liberal both vote Yes. -/
def egVoteFor (slug session : String) : VoteData :=
  { vote := { session := some session },
    ballots := [{ ballot := "Yes", mp_party := "Liberal",
                  politician_url := "/politicians/" ++ slug ++ "/" },
                { ballot := "Yes", mp_party := "Liberal" }] }

/-- A two-MP roster. -/
def egMps : List (String × String) := [("mp1", "Liberal"), ("mp2", "Liberal")]

/-- A corpus in which `mp1` appears only in session 43-2 and `mp2`
only in session 44-1. -/
def egGetVotes : String → List (String × VoteData) :=
  fun slug =>
    if slug == "mp1" then [("43-2_10", egVoteFor "mp1" "43-2")]
    else if slug == "mp2" then [("44-1_20", egVoteFor "mp2" "44-1")]
    else []

/-- C6.  Interrupting a fresh analytics run after the first legislator
and restarting without force does NOT reproduce the uninterrupted
document: the per-legislator stats agree, but `sessions_analyzed` is
rebuilt only from the legislators processed after the restart
(`all_sessions` is populated inside the per-MP loop, which skips
checkpointed MPs), so session 43-2 — contributed only by the
checkpointed `mp1` — is missing and the documents differ. -/
theorem c6_resume_not_identical :
    ((calculate_all_party_line_stats egMps egGetVotes none false).map
        (fun d => d.summary.sessions_analyzed)) = some (some ["44-1", "43-2"])
    ∧ ((calculate_all_party_line_stats egMps egGetVotes
          (interruptedAnalyticsState egMps egGetVotes 1) false).map
        (fun d => d.summary.sessions_analyzed)) = some (some ["44-1"])
    ∧ ((calculate_all_party_line_stats egMps egGetVotes
          (interruptedAnalyticsState egMps egGetVotes 1) false).map (fun d => d.mp_stats))
        = ((calculate_all_party_line_stats egMps egGetVotes none false).map
            (fun d => d.mp_stats))
    ∧ calculate_all_party_line_stats egMps egGetVotes
        (interruptedAnalyticsState egMps egGetVotes 1) false
        ≠ calculate_all_party_line_stats egMps egGetVotes none false := by decide

/-! ### The `total_votes_analyzed` invariant (claim C10) -/

/-- A fold preserves any invariant its step preserves. -/
lemma foldl_preserves {α β : Type _} (P : β → Prop) (f : β → α → β)
    (hf : ∀ b a, P b → P (f b a)) (l : List α) (b : β) (hb : P b) : P (l.foldl f b) := by
  induction l generalizing b with
  | nil => exact hb
  | cons a t ih => exact ih (f b a) (hf b a hb)

/-- `save_incremental_results` copies `total_votes_analyzed` from the
prior document (0 when creating a fresh one). -/
lemma save_incremental_results_tva (mp_slug : String) (stats : MpStats)
    (o : Option PartyLineDoc) :
    (save_incremental_results mp_slug stats o).summary.total_votes_analyzed
      = (o.getD {}).summary.total_votes_analyzed := rfl

/-- The per-MP loop step preserves a zero `total_votes_analyzed`. -/
lemma analyticsStep_tva (all_mps : List (String × String))
    (getVotes : String → List (String × VoteData)) (already : List String)
    (st : Option PartyLineDoc × List String) (mp : String × String)
    (h : st.1.elim True (fun d => d.summary.total_votes_analyzed = 0)) :
    (analyticsStep all_mps getVotes already st mp).1.elim True
      (fun d => d.summary.total_votes_analyzed = 0) := by
  simp only [analyticsStep]
  split
  · exact h
  · split
    · exact h
    · show (save_incremental_results _ _ st.1).summary.total_votes_analyzed = 0
      rw [save_incremental_results_tva]
      rcases hst : st.1 with _ | d
      · rfl
      · rw [hst] at h
        exact h

/-- The final summary pass preserves a zero `total_votes_analyzed`. -/
lemma finalizeDoc_tva (o : Option PartyLineDoc) (sessions : List String)
    (h : o.elim True (fun d => d.summary.total_votes_analyzed = 0)) :
    (finalizeDoc o sessions).elim True
      (fun d => d.summary.total_votes_analyzed = 0) := by
  cases o with
  | none => trivial
  | some d => exact h

/-- C10.  `total_votes_analyzed` is 0 in a freshly created document,
is copied unchanged by every incremental save, and is 0 in every
document the full run produces from a start state satisfying that
invariant (in particular from no prior document). -/
theorem c10_total_votes_analyzed_zero :
    (∀ (mp_slug : String) (stats : MpStats),
      (save_incremental_results mp_slug stats none).summary.total_votes_analyzed = 0)
    ∧ (∀ (mp_slug : String) (stats : MpStats) (d : PartyLineDoc),
      (save_incremental_results mp_slug stats (some d)).summary.total_votes_analyzed
        = d.summary.total_votes_analyzed)
    ∧ (∀ (all_mps : List (String × String))
        (getVotes : String → List (String × VoteData))
        (existing : Option PartyLineDoc) (force : Bool),
        existing.elim True (fun d0 => d0.summary.total_votes_analyzed = 0) →
        (calculate_all_party_line_stats all_mps getVotes existing force).elim True
          (fun d => d.summary.total_votes_analyzed = 0)) := by
  refine ⟨fun _ _ => rfl, fun _ _ _ => rfl, ?_⟩
  intro all_mps getVotes existing force h
  unfold calculate_all_party_line_stats
  split
  · trivial
  · apply finalizeDoc_tva
    have hfold := foldl_preserves
      (fun st : Option PartyLineDoc × List String =>
        st.1.elim True (fun d => d.summary.total_votes_analyzed = 0))
      (analyticsStep all_mps getVotes
        (alreadyProcessedOf (if force then none else existing)))
      (fun b a hb => analyticsStep_tva all_mps getVotes _ b a hb)
      all_mps ((if force then none else existing), [])
      (by cases force with
          | false => exact h
          | true => trivial)
    exact hfold

/-- C10, witness: the invariant theorem applied to the two-MP corpus,
whose full run does produce a document. -/
theorem c10_total_votes_analyzed_zero_witness :
    (calculate_all_party_line_stats egMps egGetVotes none false).elim True
      (fun d => d.summary.total_votes_analyzed = 0) :=
  c10_total_votes_analyzed_zero.2.2 egMps egGetVotes none false True.intro

/-! ### Part 2: cache synchronization (`unified_cache_update.py`) -/

/-- Vote-id extraction
`url.replace('/votes/', '').replace('/', '_').rstrip('_')`
(unified_cache_update.py lines 397 and 786). -/
def voteIdFromUrl (url : String) : String :=
  rstripUnderscore (replaceStr (replaceStr url "/votes/" "") "/" "_")

/-- Python's `max` over a nonempty list of strings, tail-recursively
(helper for the date watermark). -/
def maxDateAux : List String → String → String
  | [], m => m
  | d :: ds, m => maxDateAux ds (if strLtPy m d then d else m)

/-- Python's `max(dates)` as an option (none on the empty list). -/
def maxDateOpt : List String → Option String
  | [] => none
  | d :: ds => some (maxDateAux ds d)

/-- Embeds the detection core of `check_for_new_votes` (lines 374-494).
Inputs are the id/date pairs of `api_vote_data.items()` (ids built by
`voteIdFromUrl`, unique as dict keys) and of the cached recent-votes
list in file order.  The set difference is computed first; only when
it is empty — and both lists are nonempty — are upstream items
strictly newer than the watermark (the max date among the first 10
cached entries) also treated as new. -/
def check_for_new_votes (api_vote_data cached_votes : List (String × String)) :
    List String :=
  let cached_vote_ids := cached_votes.map Prod.fst
  let new_vote_ids := (api_vote_data.map Prod.fst).filter
    (fun i => !(cached_vote_ids.contains i))
  if new_vote_ids.isEmpty && !cached_votes.isEmpty && !api_vote_data.isEmpty then
    match maxDateOpt ((cached_votes.take 10).filterMap
        (fun v => if v.2 == "" then none else some v.2)) with
    | none => new_vote_ids
    | some w =>
      new_vote_ids ++
        (api_vote_data.filter (fun v => v.2 != "" && strLtPy w v.2)).map Prod.fst
  else new_vote_ids

/-- Modelled from the spec: claim C3's reading of the detector, in
which the date watermark is the most recent date present anywhere in
the local recent-votes cache (the source consults only the first 10
entries).  Defined solely for comparison with `check_for_new_votes`. -/
def detectNewVotesClaim (api_vote_data cached_votes : List (String × String)) :
    List String :=
  let cached_vote_ids := cached_votes.map Prod.fst
  let new_vote_ids := (api_vote_data.map Prod.fst).filter
    (fun i => !(cached_vote_ids.contains i))
  if new_vote_ids.isEmpty && !cached_votes.isEmpty && !api_vote_data.isEmpty then
    match maxDateOpt (cached_votes.filterMap
        (fun v => if v.2 == "" then none else some v.2)) with
    | none => new_vote_ids
    | some w =>
      new_vote_ids ++
        (api_vote_data.filter (fun v => v.2 != "" && strLtPy w v.2)).map Prod.fst
  else new_vote_ids

/-! ### Process lock (`UnifiedCacheUpdater.acquire_lock`) -/

/-- The parsed content of the lock file: unreadable, or a record whose
`pid` key may be absent (Python falsy). -/
inductive LockContent
  | corrupt
  | record (pid : Option Nat) (started_at mode : String)
deriving DecidableEq

/-- The state `acquire_lock` can observe and mutate: the lock file and
the cache artifacts (named blobs). -/
structure LockSystemState where
  lock_file : Option LockContent
  artifacts : List (String × String)
deriving DecidableEq

/-- Embeds `acquire_lock` (lines 126-163).  `alive p` models
`os.kill(p, 0)` succeeding; `write_ok` models the lock-file write
succeeding.  An `Except.error (code, st)` is `sys.exit(code)` with the
system left in state `st`. -/
def acquire_lock (alive : Nat → Bool) (cur_pid : Nat) (now mode : String)
    (write_ok : Bool) (st : LockSystemState) :
    Except (Nat × LockSystemState) LockSystemState :=
  let checked : Except (Nat × LockSystemState) LockSystemState :=
    match st.lock_file with
    | none => .ok st
    | some .corrupt => .ok { st with lock_file := none }
    | some (.record none _ _) => .ok st
    | some (.record (some p) _ _) =>
      if alive p then .error (1, st)
      else .ok { st with lock_file := none }
  match checked with
  | .error e => .error e
  | .ok st1 =>
    if write_ok then
      .ok { st1 with lock_file := some (.record (some cur_pid) now mode) }
    else .error (1, st1)

/-! ### Incremental vote-detail sync (`update_vote_details_incremental`) -/

/-- The on-disk state the detail fetcher manipulates: the set of vote
ids present in the Vote Cache Index, and the set of vote ids whose
detail artifact file exists. -/
structure SyncState where
  index : List String
  store : List String
deriving DecidableEq

/-- Embeds `_cache_single_vote_details` (lines 842-869) at the level of
its effect: when the fetches and the file write succeed (`fetch_ok`),
the detail artifact exists on disk and `true` is returned; any failure
is caught inside and yields `false` with no write. -/
def cache_single_vote_details (fetch_ok : String → Bool) (st : SyncState)
    (vote_id : String) : SyncState × Bool :=
  if fetch_ok vote_id then ({ st with store := st.store ++ [vote_id] }, true)
  else (st, false)

/-- The body of the per-vote loop of `update_vote_details_incremental`
(lines 806-821): attempt the fetch-and-write; on success, record the
index entry. -/
def uvdiStep (fetch_ok : String → Bool) (s : SyncState) (i : String) : SyncState :=
  let r := cache_single_vote_details fetch_ok s i
  if r.2 then { r.1 with index := r.1.index ++ [i] } else r.1

/-- Embeds `update_vote_details_incremental` (lines 766-840): the new
votes are the upstream ids missing from the index; each is fetched and
written, and an index entry is recorded only for the ids whose
fetch-and-write returned success. -/
def update_vote_details_incremental (fetch_ok : String → Bool) (st : SyncState)
    (api_ids : List String) : SyncState :=
  let new_votes := api_ids.filter (fun i => !(st.index.contains i))
  new_votes.foldl (uvdiStep fetch_ok) st

/-! ### Cache expiry (`is_cache_expired`) and artifact loading -/

/-- The parsed content of a JSON cache artifact as `is_cache_expired`
distinguishes it: unparseable; no `expires` key (Python default 0); a
numeric `expires`; a string `expires` that parses as an ISO timestamp
or as a float (both yielding an epoch value); or a string that parses
as neither. -/
inductive CacheFileContent
  | corrupt
  | jsonNoExpires
  | jsonExpiresNum (expires : Nat)
  | jsonExpiresIso (ts : Nat)
  | jsonExpiresFloatStr (v : Nat)
  | jsonExpiresBadStr
deriving DecidableEq

/-- A cache file on disk: its age (now minus mtime) and its content. -/
structure CacheFile where
  age : Nat
  content : CacheFileContent
deriving DecidableEq

/-- Embeds `is_cache_expired` (lines 187-226).  `durations` is the
`CACHE_DURATIONS` table as a total function (the two fallback defaults
only differ on unknown types).  An `Except.error ()` is an uncaught
`ValueError` escaping to the caller. -/
def is_cache_expired (force_full : Bool) (durations : String → Nat)
    (cache_type : String) (now : Nat) (file : Option CacheFile)
    (is_image : Bool) : Except Unit Bool :=
  if force_full then .ok true
  else
    match file with
    | none => .ok true
    | some f =>
      if is_image then .ok (decide (f.age > durations cache_type))
      else
        match f.content with
        | .corrupt => .ok (decide (f.age > durations cache_type))
        | .jsonNoExpires => .ok (decide (now > 0))
        | .jsonExpiresNum e => .ok (decide (now > e))
        | .jsonExpiresIso t => .ok (decide (now > t))
        | .jsonExpiresFloatStr v => .ok (decide (now > v))
        | .jsonExpiresBadStr => .error ()

/-- The parsed content of a vote-detail artifact file. -/
inductive VoteFileContent
  | corrupt
  | valid (vd : VoteData)
deriving DecidableEq

/-- Embeds `load_vote_details` (cache_party_line_stats.py lines
183-192): missing file or any parse error yields `None`; nothing is
raised to the caller. -/
def load_vote_details (files : List (String × VoteFileContent)) (vote_id : String) :
    Option VoteData :=
  match files.lookup vote_id with
  | none => none
  | some .corrupt => none
  | some (.valid vd) => some vd

/-- A system state holding a lock record for process 42 plus one cache
artifact. -/
def egLockState : LockSystemState :=
  { lock_file := some (.record (some 42) "2024-01-01T00:00:00" "auto"),
    artifacts := [("votes.json", "payload")] }

/-- C4.  When the lock file records a live pid, `acquire_lock` exits
with status 1 leaving the whole state — the lock record and every
artifact — unchanged; when the recorded pid is dead, the stale record
is discarded and a fresh record with the current pid is written, with
the artifacts untouched. -/
theorem c4_lock_exclusivity (alive : Nat → Bool) (cur_pid : Nat) (now mode : String)
    (write_ok : Bool) (st : LockSystemState) (p : Nat) (s m : String)
    (hlock : st.lock_file = some (.record (some p) s m)) :
    (alive p = true →
      acquire_lock alive cur_pid now mode write_ok st = .error (1, st))
    ∧ (alive p = false → write_ok = true →
      acquire_lock alive cur_pid now mode write_ok st
        = .ok { st with lock_file := some (.record (some cur_pid) now mode) }) := by
  constructor
  · intro ha
    simp [acquire_lock, hlock, ha]
  · intro ha hw
    simp [acquire_lock, hlock, ha, hw]

/-- C4, witness: with pid 42 alive the run exits 1 without touching the
state; with pid 42 dead the stale record is replaced by one for the
current pid 7. -/
theorem c4_lock_exclusivity_witness :
    acquire_lock (fun q => q == 42) 7 "2025-01-01" "auto" true egLockState
      = .error (1, egLockState)
    ∧ acquire_lock (fun _ => false) 7 "2025-01-01" "auto" true egLockState
      = .ok { egLockState with
          lock_file := some (.record (some 7) "2025-01-01" "auto") } :=
  ⟨(c4_lock_exclusivity (fun q => q == 42) 7 "2025-01-01" "auto" true egLockState
      42 "2024-01-01T00:00:00" "auto" rfl).1 (by decide),
   (c4_lock_exclusivity (fun _ => false) 7 "2025-01-01" "auto" true egLockState
      42 "2024-01-01T00:00:00" "auto" rfl).2 rfl rfl⟩

/-- C9, counterexample.  A malformed (unparseable) artifact only 5
seconds old is reported as fresh by `is_cache_expired`, while a missing
artifact is reported expired — so malformed is not treated identically
to missing; moreover a JSON artifact whose `expires` string parses as
neither an ISO timestamp nor a float makes `is_cache_expired` raise
(`ValueError`) instead of returning. -/
theorem c9_malformed_not_missing_counterexample :
    is_cache_expired false (fun _ => 3600) "votes" 1000
      (some { age := 5, content := .corrupt }) false = .ok false
    ∧ is_cache_expired false (fun _ => 3600) "votes" 1000 none false = .ok true
    ∧ is_cache_expired false (fun _ => 3600) "votes" 1000
      (some { age := 5, content := .jsonExpiresBadStr }) false = .error () :=
  ⟨rfl, rfl, rfl⟩

/-- C9, amended.  `load_vote_details` treats malformed content exactly
like a missing file (returns `None`, never raises); `is_cache_expired`
never raises on an unparseable artifact but judges it by file age
against the type duration — treating a recently modified corrupt
artifact as fresh, unlike a missing one — and raises `ValueError` only
for a JSON artifact whose string `expires` field parses as neither an
ISO timestamp nor a float. -/
theorem c9_malformed_artifact_handling :
    (∀ (files : List (String × VoteFileContent)) (vote_id : String),
      (files.lookup vote_id = some .corrupt ∨ files.lookup vote_id = none) →
      load_vote_details files vote_id = none)
    ∧ (∀ (durations : String → Nat) (ct : String) (now age : Nat),
      is_cache_expired false durations ct now
        (some { age := age, content := .corrupt }) false
        = .ok (decide (age > durations ct)))
    ∧ (∀ (durations : String → Nat) (ct : String) (now age : Nat),
      is_cache_expired false durations ct now
        (some { age := age, content := .jsonExpiresBadStr }) false = .error ()) := by
  refine ⟨?_, fun _ _ _ _ => rfl, fun _ _ _ _ => rfl⟩
  intro files vote_id h
  rcases h with h | h <;> simp [load_vote_details, h]

/-- C9, witness: a corrupt vote-detail artifact loads as `None`. -/
theorem c9_malformed_artifact_handling_witness :
    load_vote_details [("44-1_1", VoteFileContent.corrupt)] "44-1_1" = none :=
  c9_malformed_artifact_handling.1 [("44-1_1", .corrupt)] "44-1_1" (Or.inl rfl)

/-! ### Closed form of the incremental detail sync (claim C5) -/

/-- One loop iteration in closed form. -/
lemma uvdiStep_eq (fetch_ok : String → Bool) (s : SyncState) (i : String) :
    uvdiStep fetch_ok s i
      = if fetch_ok i then { index := s.index ++ [i], store := s.store ++ [i] }
        else s := by
  cases h : fetch_ok i <;> simp [uvdiStep, cache_single_vote_details, h]

/-- The per-vote fold of `update_vote_details_incremental` appends each
successfully fetched id to both the store and the index. -/
lemma uvdi_fold_closed (fetch_ok : String → Bool) (l : List String) :
    ∀ st : SyncState,
      l.foldl (uvdiStep fetch_ok) st
      = { index := st.index ++ l.filter fetch_ok,
          store := st.store ++ l.filter fetch_ok } := by
  induction l with
  | nil => intro st; simp
  | cons a t ih =>
    intro st
    rw [List.foldl_cons, uvdiStep_eq]
    cases hfa : fetch_ok a <;>
      simp [List.filter_cons, hfa, ih, List.append_assoc]

/-- `update_vote_details_incremental`, in closed form. -/
lemma update_vote_details_incremental_eq (fetch_ok : String → Bool)
    (st : SyncState) (api_ids : List String) :
    update_vote_details_incremental fetch_ok st api_ids
      = { index := st.index ++
            ((api_ids.filter (fun i => !(st.index.contains i))).filter fetch_ok),
          store := st.store ++
            ((api_ids.filter (fun i => !(st.index.contains i))).filter fetch_ok) } := by
  unfold update_vote_details_incremental
  exact uvdi_fold_closed fetch_ok _ st

/-- C5.  Every id present in the index after the run is either an old
index entry or has its detail artifact in the store; hence if the index
matched the store before the run it still does after it; and a vote
whose fetch-or-write failed is excluded from the index and is still
computed as new by the next run over the same upstream ids. -/
theorem c5_index_entry_only_after_write (fetch_ok : String → Bool)
    (st : SyncState) (api_ids : List String) :
    (∀ i, i ∈ (update_vote_details_incremental fetch_ok st api_ids).index →
      i ∈ st.index ∨ i ∈ (update_vote_details_incremental fetch_ok st api_ids).store)
    ∧ ((∀ j, j ∈ st.index → j ∈ st.store) →
       ∀ i, i ∈ (update_vote_details_incremental fetch_ok st api_ids).index →
         i ∈ (update_vote_details_incremental fetch_ok st api_ids).store)
    ∧ (∀ i, fetch_ok i = false → i ∉ st.index →
        i ∉ (update_vote_details_incremental fetch_ok st api_ids).index
        ∧ (i ∈ api_ids →
           i ∈ api_ids.filter (fun x =>
             !((update_vote_details_incremental fetch_ok st api_ids).index.contains x)))) := by
  rw [update_vote_details_incremental_eq]
  refine ⟨?_, ?_, ?_⟩
  · intro i hi
    rcases List.mem_append.mp hi with h | h
    · exact Or.inl h
    · exact Or.inr (List.mem_append.mpr (Or.inr h))
  · intro hsub i hi
    rcases List.mem_append.mp hi with h | h
    · exact List.mem_append.mpr (Or.inl (hsub i h))
    · exact List.mem_append.mpr (Or.inr h)
  · intro i hfail hidx
    have hnot : i ∉ st.index ++
        ((api_ids.filter (fun x => !(st.index.contains x))).filter fetch_ok) := by
      intro hmem
      rcases List.mem_append.mp hmem with h | h
      · exact hidx h
      · have := (List.mem_filter.mp h).2
        rw [hfail] at this
        exact Bool.false_ne_true this
    refine ⟨hnot, fun hin => ?_⟩
    refine List.mem_filter.mpr ⟨hin, ?_⟩
    simp only [Bool.not_eq_true']
    rw [← Bool.not_eq_true]
    intro hcontains
    exact hnot (List.elem_iff.mp hcontains)

/-- C5, witness: upstream ids A and B with B failing — A is indexed and
stored, B is neither, and B is still detected as new next run. -/
theorem c5_index_entry_only_after_write_witness :
    "B" ∉ (update_vote_details_incremental (fun i => i == "A")
        { index := [], store := [] } ["A", "B"]).index
    ∧ ("B" ∈ ["A", "B"] →
       "B" ∈ ["A", "B"].filter (fun x =>
         !((update_vote_details_incremental (fun i => i == "A")
             { index := [], store := [] } ["A", "B"]).index.contains x))) :=
  (c5_index_entry_only_after_write (fun i => i == "A")
    { index := [], store := [] } ["A", "B"]).2.2 "B" (by decide) (by decide)

/-- A recent-votes cache with eleven entries whose most recent date sits
in position 11, beyond the 10-entry window the source consults. -/
def egCached11 : List (String × String) :=
  [("c1", "2001-01-01"), ("c2", "2001-01-01"), ("c3", "2001-01-01"), ("c4", "2001-01-01"),
   ("c5", "2001-01-01"), ("c6", "2001-01-01"), ("c7", "2001-01-01"), ("c8", "2001-01-01"),
   ("c9", "2001-01-01"), ("c10", "2001-01-01"), ("c11", "2009-01-01")]

/-- An upstream response consisting of one already-mirrored vote. -/
def egApiOld : List (String × String) := [("c1", "2005-01-01")]

/-- C3, counterexample.  With the eleven-entry cache, the identifier
diff is empty and the source's watermark is the max date over the first
10 entries only, so the already-mirrored `c1` is detected as new even
though its date (2005) is older than the most recent date present in
the cache (2009); the detector the claim describes finds nothing new. -/
theorem c3_watermark_counterexample :
    check_for_new_votes egApiOld egCached11 = ["c1"]
    ∧ "c1" ∈ egCached11.map Prod.fst
    ∧ ("c1", "2005-01-01") ∈ egApiOld
    ∧ "2009-01-01" ∈ egCached11.map Prod.snd
    ∧ strLtPy "2005-01-01" "2009-01-01" = true
    ∧ detectNewVotesClaim egApiOld egCached11 = [] := by decide

/-- C3, amended.  The detected set is exactly the upstream identifiers
missing from the mirrored set, plus — only when that difference is
empty and both lists are nonempty — the upstream items strictly newer
than the most recent date among the FIRST TEN entries of the
recent-votes cache; in particular with mirrored ids A, B and upstream
C, B, A the detected set is exactly C. -/
theorem c3_detection_characterization :
    (∀ (api cached : List (String × String)) (i : String),
      i ∈ check_for_new_votes api cached ↔
        (i ∈ api.map Prod.fst ∧ i ∉ cached.map Prod.fst)
        ∨ ((∀ j ∈ api.map Prod.fst, j ∈ cached.map Prod.fst) ∧ cached ≠ [] ∧ api ≠ []
            ∧ ∃ d w, (i, d) ∈ api ∧ d ≠ ""
              ∧ maxDateOpt ((cached.take 10).filterMap
                  (fun v => if v.2 == "" then none else some v.2)) = some w
              ∧ strLtPy w d = true))
    ∧ check_for_new_votes
        [("C", "2024-03-03"), ("B", "2024-02-02"), ("A", "2024-01-01")]
        [("A", "2024-01-01"), ("B", "2024-02-02")] = ["C"] := by
  refine ⟨?_, by decide⟩
  intro api cached i
  unfold check_for_new_votes
  have hdiff : ∀ x, x ∈ (api.map Prod.fst).filter
      (fun j => !((cached.map Prod.fst).contains j))
      ↔ (x ∈ api.map Prod.fst ∧ x ∉ cached.map Prod.fst) := by
    intro x
    simp [List.mem_filter, List.elem_iff]
  by_cases hcond : ((api.map Prod.fst).filter
      (fun j => !((cached.map Prod.fst).contains j))).isEmpty
        && !cached.isEmpty && !api.isEmpty
  · rw [if_pos hcond]
    have h1 : ((api.map Prod.fst).filter
        (fun j => !((cached.map Prod.fst).contains j))) = [] := by
      have := (Bool.and_eq_true _ _).mp ((Bool.and_eq_true _ _).mp hcond).1
      exact List.isEmpty_iff.mp this.1
    have hall : ∀ j ∈ api.map Prod.fst, j ∈ cached.map Prod.fst := by
      intro j hj
      by_contra hnot
      have : j ∈ ((api.map Prod.fst).filter
        (fun x => !((cached.map Prod.fst).contains x))) := (hdiff j).mpr ⟨hj, hnot⟩
      rw [h1] at this
      exact absurd this (List.not_mem_nil j)
    have hc : cached ≠ [] := by
      have := ((Bool.and_eq_true _ _).mp ((Bool.and_eq_true _ _).mp hcond).1).2
      simpa [List.isEmpty_iff] using this
    have ha : api ≠ [] := by
      have := ((Bool.and_eq_true _ _).mp hcond).2
      simpa [List.isEmpty_iff] using this
    have hno1 : ¬ (i ∈ api.map Prod.fst ∧ i ∉ cached.map Prod.fst) := by
      rintro ⟨hx, hy⟩
      exact hy (hall i hx)
    cases hmd : maxDateOpt ((cached.take 10).filterMap
        (fun v => if v.2 == "" then none else some v.2)) with
    | none =>
      rw [h1]
      constructor
      · intro hmem
        exact absurd hmem (List.not_mem_nil i)
      · rintro (h | ⟨_, _, _, d, w, _, _, hw, _⟩)
        · exact absurd h hno1
        · exact Option.noConfusion hw
    | some w =>
      rw [h1]
      constructor
      · intro hmem
        have hex : ∃ x, (i, x) ∈ api ∧ ¬x = "" ∧ strLtPy w x = true := by
          simpa using hmem
        rcases hex with ⟨d, hpd, hd, hlt⟩
        exact Or.inr ⟨hall, hc, ha, d, w, hpd, hd, rfl, hlt⟩
      · rintro (h | ⟨_, _, _, d, w', hpd, hd, hw', hlt⟩)
        · exact absurd h hno1
        · injection hw' with hww
          subst hww
          simp only [List.nil_append]
          refine List.mem_map.mpr ⟨(i, d), List.mem_filter.mpr ⟨hpd, ?_⟩, rfl⟩
          simp [bne_iff_ne, hd, hlt]
  · rw [if_neg hcond]
    rw [hdiff i]
    constructor
    · exact Or.inl
    · rintro (h | ⟨hall, hc, ha, hrest⟩)
      · exact h
      · exfalso
        apply hcond
        have h1 : ((api.map Prod.fst).filter
            (fun j => !((cached.map Prod.fst).contains j))) = [] := by
          apply List.filter_eq_nil_iff.mpr
          intro j hj hcontra
          have he : (cached.map Prod.fst).contains j = true :=
            List.elem_iff.mpr (hall j hj)
          rw [he] at hcontra
          simp at hcontra
        rw [h1]
        simp [List.isEmpty_iff, hc, ha]

/-- C3, witness: the characterization applied to the mirrored-{A,B},
upstream-[C,B,A] instance yields C as new. -/
theorem c3_detection_characterization_witness :
    "C" ∈ check_for_new_votes
      [("C", "2024-03-03"), ("B", "2024-02-02"), ("A", "2024-01-01")]
      [("A", "2024-01-01"), ("B", "2024-02-02")] :=
  (c3_detection_characterization.1
    [("C", "2024-03-03"), ("B", "2024-02-02"), ("A", "2024-01-01")]
    [("A", "2024-01-01"), ("B", "2024-02-02")] "C").mpr
    (Or.inl (by decide))
